import Mathlib

/-!
Shallow embedding of the `rp` interface-lifecycle and peer-provisioning
orchestrator (`src/rp/src/exchange.rs`) together with theorems checking the
natural-language specification against it.

External effects (netlink control-channel calls, file reads, the exchange
engine) are modelled by an environment `Env` that fixes the result of each
external operation; the orchestrator is a function from options and an
environment to a result and a trace of the externally visible operations it
attempted, in order.  Machine `u16` arithmetic is modelled on `Nat` with an
explicit `% 65536`.
-/

namespace Rp

/-- Errors from external operations; the payload is an opaque message. -/
abbrev Err := String

/-- Model of `std::net::SocketAddr`: an opaque already-rendered IP text plus a
port (`u16`, modelled as `Nat` below `65536`). -/
structure SocketAddr where
  ip : String
  port : Nat
deriving DecidableEq, Repr

/-- `SocketAddr::to_string()`: the rendered address, `ip:port`. -/
def SocketAddr.toStr (a : SocketAddr) : String :=
  a.ip ++ ":" ++ toString a.port

/-- `ExchangePeer` from `exchange.rs`: one remote peer descriptor. -/
structure ExchangePeer where
  public_keys_dir : String
  endpoint : Option SocketAddr
  persistent_keepalive : Option Nat
  allowed_ips : Option String
deriving DecidableEq, Repr

/-- `ExchangeOptions` from `exchange.rs`: process-scoped configuration. -/
structure ExchangeOptions where
  verbose : Bool
  private_keys_dir : String
  dev : Option String
  listen : Option SocketAddr
  peers : List ExchangePeer
deriving DecidableEq, Repr

/-- The wireguard netlink device attributes used by `exchange.rs`
(`WgDeviceAttrs`); key material is opaque (`Nat`). -/
inductive WgDeviceAttr where
  | ifIndex (i : Nat)
  | privateKey (k : Nat)
  | listenPort (p : Nat)
deriving DecidableEq, Repr

/-- The generic-netlink wireguard command used by `wg_set`. -/
inductive WireguardCmd where
  | setDevice
deriving DecidableEq, Repr

/-- Netlink message header flags set by `wg_set`. -/
inductive NlFlag where
  | request
  | ack
deriving DecidableEq, Repr

/-- The netlink message assembled by `wg_set`: a `Wireguard` payload
(command plus attribute list) with header flags. -/
structure WgMessage where
  cmd : WireguardCmd
  nlas : List WgDeviceAttr
  flags : List NlFlag
deriving DecidableEq, Repr

/-- `WireguardOut` passed to `AppServer::add_peer`: the classic-tunnel
linkage data (device name, classic public key text, extra `wg set`
parameters). -/
structure WireguardOut where
  dev : String
  pk : String
  extra_params : List String
deriving DecidableEq, Repr

/-- Externally visible operations attempted by the orchestrator, in
program order. -/
inductive Event where
  | linkAdd (name : String)
  | linkGet (name : String)
  | linkSetUp (index : Nat)
  | armHandler (index : Nat)
  | wgSet (msg : WgMessage)
  | addPeer (psk : Option Nat) (pqpk : Nat) (reserved : Option Unit)
      (wgOut : Option WireguardOut) (hint : Option String)
  | eventLoopRun
  | linkDel (index : Nat)
deriving DecidableEq, Repr

/-- Result of a code fragment: its `Result` value plus the trace of
external operations it attempted. -/
abbrev Res (α : Type) := Except Err α × List Event

/-- Sequencing of two fragments: on error the tail never runs (`?`);
traces concatenate. -/
def bindRes {α β : Type} : Res α → (α → Res β) → Res β
  | (Except.ok x, tr), f => ((f x).1, tr ++ (f x).2)
  | (Except.error e, tr), _ => (Except.error e, tr)

/-- A fragment that attempts one external operation: the attempt is
recorded in the trace, then its result is taken from the environment. -/
def step {α : Type} (e : Event) (r : Except Err α) : Res α := (r, [e])

/-- A fallible operation with no externally visible on-device effect
(connection setup, file reads, key parsing, engine construction). -/
def liftRes {α : Type} (r : Except Err α) : Res α := (r, [])

/-- A pure value. -/
def pureRes {α : Type} (x : α) : Res α := (Except.ok x, [])

/-- Per-peer external results: whether the `psk` file exists, the results of
loading `psk`, `pqpk` and reading `wgpk`, and of `AppServer::add_peer`. -/
structure PeerEnv where
  pskExists : Bool
  loadPskRes : Except Err Nat
  loadPqpkRes : Except Err Nat
  readWgpkRes : Except Err String
  addPeerRes : Except Err Unit

/-- Results of every external operation the orchestrator performs, in the
order the source performs them. -/
structure Env where
  rtNewConnectionRes : Except Err Unit
  linkAddRes : Except Err Unit
  linkGetRes : Except Err Nat
  linkSetUpRes : Except Err Unit
  setHandlerRes : Except Err Unit
  genlNewConnectionRes : Except Err Unit
  readWgskRes : Except Err String
  parsePrivkeyRes : String → Except Err Nat
  wgSetRes : Except Err Unit
  loadSSkRes : Except Err Unit
  loadSPkRes : Except Err Unit
  appServerNewRes : Except Err Unit
  peerEnv : Nat → PeerEnv
  eventLoopRes : Except Err Unit
  linkDelRes : Except Err Unit

/-- `netlink::link_create_and_up`: add the link, look it up by name to
learn its kernel index, bring it up, return the index. -/
def link_create_and_up (env : Env) (link_name : String) : Res Nat :=
  bindRes (step (Event.linkAdd link_name) env.linkAddRes) fun _ =>
  bindRes (step (Event.linkGet link_name) env.linkGetRes) fun index =>
  bindRes (step (Event.linkSetUp index) env.linkSetUpRes) fun _ =>
  pureRes index

/-- `netlink::link_cleanup`: delete the link over the primary connection,
propagating failure. -/
def link_cleanup (env : Env) (index : Nat) : Res Unit :=
  step (Event.linkDel index) env.linkDelRes

/-- Environment of the interrupt-path cleanup routine: results of the fresh
rtnetlink connection and of the delete request it issues. -/
structure StandaloneEnv where
  newConnectionRes : Except Err Unit
  linkDelRes : Except Err Unit

/-- `netlink::link_cleanup_standalone`: open a fresh rtnetlink connection
(`?` on failure), attempt the deletion with its result explicitly
discarded (`let _ = ...` — the source comments that the device may already
have been auto-cleaned up), and return `Ok(())`. -/
def link_cleanup_standalone (env : StandaloneEnv) (index : Nat) : Res Unit :=
  bindRes (liftRes env.newConnectionRes) fun _ =>
    let _ignored := env.linkDelRes
    (Except.ok (), [Event.linkDel index])

/-- The netlink message assembled by `netlink::wg_set`: a `SetDevice`
wireguard payload whose attribute list is the caller's list with
`IfIndex(index)` inserted at position 0, sent with `NLM_F_REQUEST | NLM_F_ACK`. -/
def wg_set_message (index : Nat) (attr : List WgDeviceAttr) : WgMessage :=
  { cmd := WireguardCmd.setDevice
    nlas := attr.insertIdx 0 (WgDeviceAttr.ifIndex index)
    flags := [NlFlag.request, NlFlag.ack] }

/-- `netlink::wg_set` as a traced operation: sends the assembled message
and yields the kernel's response. -/
def wg_set (env : Env) (index : Nat) (attr : List WgDeviceAttr) : Res Unit :=
  step (Event.wgSet (wg_set_message index attr)) env.wgSetRes

/-- The `endpoint` segment of the `wg set` extra parameter list: present
only when the peer has an endpoint, and then carrying the address with the
port increased by one (`u16` arithmetic, hence mod `2^16`). -/
def endpointParams (peer : ExchangePeer) : List String :=
  match peer.endpoint with
  | some endpoint =>
      ["endpoint", SocketAddr.toStr ⟨endpoint.ip, (endpoint.port + 1) % 65536⟩]
  | none => []

/-- The `persistent-keepalive` segment of the extra parameter list, value
passed through as provided. -/
def keepaliveParams (peer : ExchangePeer) : List String :=
  match peer.persistent_keepalive with
  | some k => ["persistent-keepalive", toString k]
  | none => []

/-- The `allowed-ips` segment of the extra parameter list, string passed
through verbatim. -/
def allowedIpsParams (peer : ExchangePeer) : List String :=
  match peer.allowed_ips with
  | some a => ["allowed-ips", a]
  | none => []

/-- The full `extra_params` vector built per peer in `exchange`: the three
conditional segments pushed in source order. -/
def peerExtraParams (peer : ExchangePeer) : List String :=
  endpointParams peer ++ keepaliveParams peer ++ allowedIpsParams peer

/-- The pre-shared-key argument of `add_peer`:
`if psk.exists() { Some(SymKey::load_b64(psk)) } else { None }.transpose()?`.
A missing file yields `Ok(None)`; a present file propagates the loader's
result. -/
def pskArg (pe : PeerEnv) : Except Err (Option Nat) :=
  if pe.pskExists then pe.loadPskRes.map some else Except.ok none

/-- The device attribute vector pushed by `exchange` before `wg_set`:
always the private key, plus — only when a listen address was supplied —
the listen port increased by one (`u16` arithmetic). -/
def deviceAttrs (wgsk : Nat) (listen : Option SocketAddr) : List WgDeviceAttr :=
  [WgDeviceAttr.privateKey wgsk] ++
    match listen with
    | some listen => [WgDeviceAttr.listenPort ((listen.port + 1) % 65536)]
    | none => []

/-- The body of the peer loop in `exchange`: build `extra_params`, resolve
the optional pre-shared key, load the peer's post-quantum public key, read
its classic public key, then call `add_peer` with the tunnel linkage data
and the original endpoint (rendered) as hint. -/
def provisionPeer (env : Env) (link_name : String) (i : Nat)
    (peer : ExchangePeer) : Res Unit :=
  let pe := env.peerEnv i
  let extra_params := peerExtraParams peer
  bindRes (liftRes (pskArg pe)) fun psk =>
  bindRes (liftRes pe.loadPqpkRes) fun pqpk =>
  bindRes (liftRes pe.readWgpkRes) fun wgpk =>
  step
    (Event.addPeer psk pqpk none
      (some ⟨link_name, wgpk, extra_params⟩)
      (peer.endpoint.map SocketAddr.toStr))
    pe.addPeerRes

/-- The peer loop of `exchange`: peers are provisioned in order; the first
failure aborts the loop. -/
def provisionPeers (env : Env) (link_name : String) :
    Nat → List ExchangePeer → Res Unit
  | _, [] => pureRes ()
  | i, p :: ps =>
      bindRes (provisionPeer env link_name i p) fun _ =>
        provisionPeers env link_name (i + 1) ps

/-- The `exchange` orchestrator (`exchange.rs`, Linux/FreeBSD variant):
open the rtnetlink connection, create and bring up the link (name
defaulting to `rosenpass0`), arm the interrupt handler, open the
genetlink connection, read and parse the classic private key, push device
attributes, load the local post-quantum keys, construct the engine,
provision every peer, run the engine's event loop capturing its result,
delete the link (propagating failure with `?`), and finally return the
engine's result. -/
def exchange (opts : ExchangeOptions) (env : Env) : Res Unit :=
  bindRes (liftRes env.rtNewConnectionRes) fun _ =>
  let link_name := opts.dev.getD "rosenpass0"
  bindRes (link_create_and_up env link_name) fun link_index =>
  bindRes (step (Event.armHandler link_index) env.setHandlerRes) fun _ =>
  bindRes (liftRes env.genlNewConnectionRes) fun _ =>
  bindRes (liftRes env.readWgskRes) fun wgskText =>
  bindRes (liftRes (env.parsePrivkeyRes wgskText)) fun wgsk =>
  bindRes (wg_set env link_index (deviceAttrs wgsk opts.listen)) fun _ =>
  bindRes (liftRes env.loadSSkRes) fun _sk =>
  bindRes (liftRes env.loadSPkRes) fun _pk =>
  bindRes (liftRes env.appServerNewRes) fun _ =>
  bindRes (provisionPeers env link_name 0 opts.peers) fun _ =>
  bindRes (step Event.eventLoopRun (Except.ok ())) fun _ =>
  let out := env.eventLoopRes
  bindRes (link_cleanup env link_index) fun _ =>
  liftRes out

/-- Recognizer: interface-lookup events (emitted only once creation of the
link has succeeded). -/
def Event.isLinkGet : Event → Bool
  | Event.linkGet _ => true
  | _ => false

/-- Recognizer: arming of the interrupt handler. -/
def Event.isArmHandler : Event → Bool
  | Event.armHandler _ => true
  | _ => false

/-- Recognizer: device-configuration pushes over the wireguard genetlink
channel. -/
def Event.isWgSet : Event → Bool
  | Event.wgSet _ => true
  | _ => false

/-- Recognizer: engine peer registrations. -/
def Event.isAddPeer : Event → Bool
  | Event.addPeer _ _ _ _ _ => true
  | _ => false

/-- Recognizer: entry into the engine's blocking event loop. -/
def Event.isEventLoopRun : Event → Bool
  | Event.eventLoopRun => true
  | _ => false

/-- Recognizer: interface-deletion attempts. -/
def Event.isLinkDel : Event → Bool
  | Event.linkDel _ => true
  | _ => false

/-- Number of interface-deletion attempts recorded in a trace. -/
def countLinkDel (tr : List Event) : Nat :=
  (tr.filter Event.isLinkDel).length

/-- An event is consistent with `name` being the single interface name:
link creation and lookup use `name`, and every peer registration carries
`name` as the tunnel-linkage device. Events that carry no name pass. -/
def usesLinkName (name : String) : Event → Bool
  | Event.linkAdd n => n == name
  | Event.linkGet n => n == name
  | Event.addPeer _ _ _ (some w) _ => w.dev == name
  | _ => true

/-- All listen-port attribute values carried by device-configuration
messages in a trace. -/
def pushedListenPorts (tr : List Event) : List Nat :=
  tr.foldr
    (fun e acc =>
      match e with
      | Event.wgSet m =>
          (m.nlas.filterMap fun a =>
            match a with
            | WgDeviceAttr.listenPort p => some p
            | _ => none) ++ acc
      | _ => acc)
    []

/-- Concrete options: defaults everywhere, no listen address, no peers. -/
def optsA : ExchangeOptions :=
  { verbose := false, private_keys_dir := "keys", dev := none,
    listen := none, peers := [] }

/-- Concrete environment in which every external operation succeeds. -/
def envAllOk : Env :=
  { rtNewConnectionRes := Except.ok ()
    linkAddRes := Except.ok ()
    linkGetRes := Except.ok 7
    linkSetUpRes := Except.ok ()
    setHandlerRes := Except.ok ()
    genlNewConnectionRes := Except.ok ()
    readWgskRes := Except.ok "WGSKB64"
    parsePrivkeyRes := fun _ => Except.ok 42
    wgSetRes := Except.ok ()
    loadSSkRes := Except.ok ()
    loadSPkRes := Except.ok ()
    appServerNewRes := Except.ok ()
    peerEnv := fun _ =>
      { pskExists := false, loadPskRes := Except.ok 0,
        loadPqpkRes := Except.ok 5, readWgpkRes := Except.ok "WGPKB64",
        addPeerRes := Except.ok () }
    eventLoopRes := Except.ok ()
    linkDelRes := Except.ok () }

/-- Environment in which the device-configuration push fails. -/
def envWgSetFail : Env :=
  { envAllOk with wgSetRes := Except.error "wg set failed" }

/-- Environment in which the engine succeeds but the normal-path interface
deletion fails. -/
def envCleanupFail : Env :=
  { envAllOk with linkDelRes := Except.error "cleanup failed" }

/-- Environment whose peers have no `psk` file, and whose pre-shared-key
loader would fail if it were ever consulted. -/
def envPskLoadErr : Env :=
  { envAllOk with
    peerEnv := fun _ =>
      { pskExists := false, loadPskRes := Except.error "psk loader called",
        loadPqpkRes := Except.ok 5, readWgpkRes := Except.ok "WGPKB64",
        addPeerRes := Except.ok () } }

/-- Concrete peer with endpoint `10.0.0.5:51000` and keepalive 25
(the spec's scenario B peer). -/
def peerB : ExchangePeer :=
  { public_keys_dir := "peerB", endpoint := some ⟨"10.0.0.5", 51000⟩,
    persistent_keepalive := some 25, allowed_ips := none }

/-- Concrete peer with no endpoint. -/
def peerNoEp : ExchangePeer :=
  { public_keys_dir := "peerC", endpoint := none,
    persistent_keepalive := some 25, allowed_ips := some "0.0.0.0/0" }

/-- Options with a single peer (scenario B shape). -/
def optsOnePeer : ExchangeOptions :=
  { optsA with peers := [peerB] }

/-- Options with a listen address at the maximal `u16` port. -/
def optsListenMax : ExchangeOptions :=
  { optsA with listen := some ⟨"9.9.9.9", 65535⟩ }

theorem bindRes_ok {α β : Type} (x : α) (tr : List Event) (f : α → Res β) :
    bindRes (Except.ok x, tr) f = ((f x).1, tr ++ (f x).2) := rfl

theorem bindRes_error {α β : Type} (e : Err) (tr : List Event) (f : α → Res β) :
    bindRes (Except.error e, tr) f = (Except.error e, tr) := rfl

theorem provisionPeer_trace (env : Env) (nm : String) (i : Nat) (p : ExchangePeer) :
    ((provisionPeer env nm i p).2).all Event.isAddPeer = true ∧
    ((provisionPeer env nm i p).2).all (usesLinkName nm) = true := by
  unfold provisionPeer
  cases h1 : pskArg (env.peerEnv i) <;>
    cases h2 : (env.peerEnv i).loadPqpkRes <;>
      cases h3 : (env.peerEnv i).readWgpkRes <;>
        simp [bindRes, liftRes, step, Event.isAddPeer, usesLinkName, h1, h2, h3]

theorem provisionPeers_trace (env : Env) (nm : String) :
    ∀ (ps : List ExchangePeer) (i : Nat),
      ((provisionPeers env nm i ps).2).all Event.isAddPeer = true ∧
      ((provisionPeers env nm i ps).2).all (usesLinkName nm) = true := by
  intro ps
  induction ps with
  | nil => intro i; simp [provisionPeers, pureRes]
  | cons p ps ih =>
      intro i
      have hp := provisionPeer_trace env nm i p
      rcases hpp : provisionPeer env nm i p with ⟨rp, trp⟩
      rw [hpp] at hp
      cases rp with
      | error e => simpa [provisionPeers, bindRes, hpp] using hp
      | ok x =>
          have hrest := ih (i + 1)
          refine ⟨?_, ?_⟩ <;>
            simp only [provisionPeers, hpp, bindRes_ok, List.all_append,
              Bool.and_eq_true]
          · exact ⟨hp.1, hrest.1⟩
          · exact ⟨hp.2, hrest.2⟩

theorem no_linkDel_of_all_addPeer (tr : List Event)
    (h : tr.all Event.isAddPeer = true) : tr.filter Event.isLinkDel = [] := by
  induction tr with
  | nil => rfl
  | cons e tr ih =>
      simp only [List.all_cons, Bool.and_eq_true] at h
      cases e <;> simp_all [Event.isAddPeer, Event.isLinkDel]

theorem no_eventLoopRun_of_all_addPeer (tr : List Event)
    (h : tr.all Event.isAddPeer = true) : tr.any Event.isEventLoopRun = false := by
  induction tr with
  | nil => rfl
  | cons e tr ih =>
      simp only [List.all_cons, Bool.and_eq_true] at h
      cases e <;> simp_all [Event.isAddPeer, Event.isEventLoopRun]

theorem exchange_trace_shape (opts : ExchangeOptions) (env : Env) :
    ∃ (idx k : Nat) (trp : List Event),
      trp.all Event.isAddPeer = true ∧
      trp.all (usesLinkName (opts.dev.getD "rosenpass0")) = true ∧
      ((exchange opts env).2 = [] ∨
       (exchange opts env).2 = [Event.linkAdd (opts.dev.getD "rosenpass0")] ∨
       (exchange opts env).2 =
         [Event.linkAdd (opts.dev.getD "rosenpass0"),
          Event.linkGet (opts.dev.getD "rosenpass0")] ∨
       (exchange opts env).2 =
         [Event.linkAdd (opts.dev.getD "rosenpass0"),
          Event.linkGet (opts.dev.getD "rosenpass0"), Event.linkSetUp idx] ∨
       (exchange opts env).2 =
         [Event.linkAdd (opts.dev.getD "rosenpass0"),
          Event.linkGet (opts.dev.getD "rosenpass0"), Event.linkSetUp idx,
          Event.armHandler idx] ∨
       (exchange opts env).2 =
         Event.linkAdd (opts.dev.getD "rosenpass0") ::
         Event.linkGet (opts.dev.getD "rosenpass0") :: Event.linkSetUp idx ::
         Event.armHandler idx ::
         Event.wgSet (wg_set_message idx (deviceAttrs k opts.listen)) :: trp ∨
       (exchange opts env).2 =
         Event.linkAdd (opts.dev.getD "rosenpass0") ::
         Event.linkGet (opts.dev.getD "rosenpass0") :: Event.linkSetUp idx ::
         Event.armHandler idx ::
         Event.wgSet (wg_set_message idx (deviceAttrs k opts.listen)) ::
         (trp ++ [Event.eventLoopRun, Event.linkDel idx])) := by
  cases hrt : env.rtNewConnectionRes with
  | error e =>
      exact ⟨0, 0, [], rfl, rfl, Or.inl (by
        simp [exchange, bindRes, liftRes, hrt])⟩
  | ok u1 =>
  cases hla : env.linkAddRes with
  | error e =>
      exact ⟨0, 0, [], rfl, rfl, Or.inr (Or.inl (by
        simp [exchange, link_create_and_up, bindRes, liftRes, step, hrt, hla]))⟩
  | ok u2 =>
  cases hlg : env.linkGetRes with
  | error e =>
      exact ⟨0, 0, [], rfl, rfl, Or.inr (Or.inr (Or.inl (by
        simp [exchange, link_create_and_up, bindRes, liftRes, step, hrt, hla, hlg])))⟩
  | ok idx =>
  cases hlsu : env.linkSetUpRes with
  | error e =>
      exact ⟨idx, 0, [], rfl, rfl, Or.inr (Or.inr (Or.inr (Or.inl (by
        simp [exchange, link_create_and_up, bindRes, liftRes, step, pureRes,
          hrt, hla, hlg, hlsu]))))⟩
  | ok u3 =>
  cases hsh : env.setHandlerRes with
  | error e =>
      exact ⟨idx, 0, [], rfl, rfl, Or.inr (Or.inr (Or.inr (Or.inr (Or.inl (by
        simp [exchange, link_create_and_up, bindRes, liftRes, step, pureRes,
          hrt, hla, hlg, hlsu, hsh])))))⟩
  | ok u4 =>
  cases hgc : env.genlNewConnectionRes with
  | error e =>
      exact ⟨idx, 0, [], rfl, rfl, Or.inr (Or.inr (Or.inr (Or.inr (Or.inl (by
        simp [exchange, link_create_and_up, bindRes, liftRes, step, pureRes,
          hrt, hla, hlg, hlsu, hsh, hgc])))))⟩
  | ok u5 =>
  cases hrw : env.readWgskRes with
  | error e =>
      exact ⟨idx, 0, [], rfl, rfl, Or.inr (Or.inr (Or.inr (Or.inr (Or.inl (by
        simp [exchange, link_create_and_up, bindRes, liftRes, step, pureRes,
          hrt, hla, hlg, hlsu, hsh, hgc, hrw])))))⟩
  | ok s =>
  cases hpk : env.parsePrivkeyRes s with
  | error e =>
      exact ⟨idx, 0, [], rfl, rfl, Or.inr (Or.inr (Or.inr (Or.inr (Or.inl (by
        simp [exchange, link_create_and_up, bindRes, liftRes, step, pureRes,
          hrt, hla, hlg, hlsu, hsh, hgc, hrw, hpk])))))⟩
  | ok k =>
  have hprovAll := provisionPeers_trace env (opts.dev.getD "rosenpass0") opts.peers 0
  rcases hprov : provisionPeers env (opts.dev.getD "rosenpass0") 0 opts.peers
    with ⟨rp, trp⟩
  rw [hprov] at hprovAll
  cases hws : env.wgSetRes with
  | error e =>
      exact ⟨idx, k, [], rfl, rfl, Or.inr (Or.inr (Or.inr (Or.inr (Or.inr (Or.inl (by
        simp [exchange, link_create_and_up, wg_set, bindRes, liftRes, step, pureRes,
          hrt, hla, hlg, hlsu, hsh, hgc, hrw, hpk, hws]))))))⟩
  | ok u6 =>
  cases hsk : env.loadSSkRes with
  | error e =>
      exact ⟨idx, k, [], rfl, rfl, Or.inr (Or.inr (Or.inr (Or.inr (Or.inr (Or.inl (by
        simp [exchange, link_create_and_up, wg_set, bindRes, liftRes, step, pureRes,
          hrt, hla, hlg, hlsu, hsh, hgc, hrw, hpk, hws, hsk]))))))⟩
  | ok u7 =>
  cases hpk2 : env.loadSPkRes with
  | error e =>
      exact ⟨idx, k, [], rfl, rfl, Or.inr (Or.inr (Or.inr (Or.inr (Or.inr (Or.inl (by
        simp [exchange, link_create_and_up, wg_set, bindRes, liftRes, step, pureRes,
          hrt, hla, hlg, hlsu, hsh, hgc, hrw, hpk, hws, hsk, hpk2]))))))⟩
  | ok u8 =>
  cases hasn : env.appServerNewRes with
  | error e =>
      exact ⟨idx, k, [], rfl, rfl, Or.inr (Or.inr (Or.inr (Or.inr (Or.inr (Or.inl (by
        simp [exchange, link_create_and_up, wg_set, bindRes, liftRes, step, pureRes,
          hrt, hla, hlg, hlsu, hsh, hgc, hrw, hpk, hws, hsk, hpk2, hasn]))))))⟩
  | ok u9 =>
  cases rp with
  | error e =>
      exact ⟨idx, k, trp, hprovAll.1, hprovAll.2,
        Or.inr (Or.inr (Or.inr (Or.inr (Or.inr (Or.inl (by
          simp [exchange, link_create_and_up, wg_set, bindRes, liftRes, step, pureRes,
            hrt, hla, hlg, hlsu, hsh, hgc, hrw, hpk, hws, hsk, hpk2, hasn, hprov]))))))⟩
  | ok u10 =>
      refine ⟨idx, k, trp, hprovAll.1, hprovAll.2,
        Or.inr (Or.inr (Or.inr (Or.inr (Or.inr (Or.inr ?_)))))⟩
      cases hld : env.linkDelRes <;>
        simp [exchange, link_create_and_up, link_cleanup, wg_set, bindRes, liftRes,
          step, pureRes, hrt, hla, hlg, hlsu, hsh, hgc, hrw, hpk, hws, hsk, hpk2,
          hasn, hprov, hld]

/-- C1 (amended): in any run, an interface deletion is attempted exactly
once when and only when control reaches the engine's run loop (whether the
engine then succeeds or fails, and even if the deletion itself fails); on
any earlier exit — interface never created, or a startup error after
creation such as a failed device configuration or peer registration — the
exiting flow attempts no deletion. -/
theorem C1_cleanup_iff_engine_ran (opts : ExchangeOptions) (env : Env) :
    countLinkDel (exchange opts env).2 =
      if ((exchange opts env).2).any Event.isEventLoopRun then 1 else 0 := by
  obtain ⟨idx, k, trp, hall, -, h⟩ := exchange_trace_shape opts env
  have h1 := no_linkDel_of_all_addPeer trp hall
  have h2 := no_eventLoopRun_of_all_addPeer trp hall
  rcases h with h | h | h | h | h | h | h <;> rw [h] <;>
    simp [countLinkDel, List.filter_append, List.any_append, h1, h2,
      Event.isLinkDel, Event.isEventLoopRun]

/-- C1 counterexample: a run in which the interface was created and brought
up (the interrupt handler was even armed), the device configuration then
failed, and the process exits with that error having attempted no
deletion — refuting "deletion is attempted exactly once on every exit
path including startup errors after creation". -/
theorem C1_counterexample :
    ((exchange optsA envWgSetFail).2).any Event.isArmHandler = true ∧
    countLinkDel (exchange optsA envWgSetFail).2 = 0 ∧
    (exchange optsA envWgSetFail).1 = Except.error "wg set failed" :=
  ⟨rfl, rfl, rfl⟩

/-- C2 (amended): once the startup sequence has succeeded and the engine's
run loop has returned, the value returned by `exchange` is the deletion
error whenever the interface deletion fails — overriding the engine's own
result — and is the engine's result only when the deletion succeeds. -/
theorem C2_cleanup_failure_overrides_engine_result (opts : ExchangeOptions)
    (env : Env) (idx k : Nat) (s : String)
    (h1 : env.rtNewConnectionRes = Except.ok ())
    (h2 : env.linkAddRes = Except.ok ())
    (h3 : env.linkGetRes = Except.ok idx)
    (h4 : env.linkSetUpRes = Except.ok ())
    (h5 : env.setHandlerRes = Except.ok ())
    (h6 : env.genlNewConnectionRes = Except.ok ())
    (h7 : env.readWgskRes = Except.ok s)
    (h8 : env.parsePrivkeyRes s = Except.ok k)
    (h9 : env.wgSetRes = Except.ok ())
    (h10 : env.loadSSkRes = Except.ok ())
    (h11 : env.loadSPkRes = Except.ok ())
    (h12 : env.appServerNewRes = Except.ok ())
    (h13 : (provisionPeers env (opts.dev.getD "rosenpass0") 0 opts.peers).1 =
      Except.ok ()) :
    (exchange opts env).1 =
      match env.linkDelRes with
      | Except.error e => Except.error e
      | Except.ok _ => env.eventLoopRes := by
  rcases hpp : provisionPeers env (opts.dev.getD "rosenpass0") 0 opts.peers
    with ⟨rp, trp⟩
  rw [hpp] at h13
  simp only at h13
  subst h13
  cases hld : env.linkDelRes <;>
    simp [exchange, link_create_and_up, link_cleanup, wg_set, bindRes, liftRes,
      step, pureRes, h1, h2, h3, h4, h5, h6, h7, h8, h9, h10, h11, h12, hpp, hld]

/-- C2 witness: a concrete all-successful run whose deletion fails:
the engine returned success yet `exchange` returns the cleanup error. -/
theorem C2_cleanup_failure_overrides_witness :
    envCleanupFail.eventLoopRes = Except.ok () ∧
    envCleanupFail.linkDelRes = Except.error "cleanup failed" ∧
    (exchange optsA envCleanupFail).1 = Except.error "cleanup failed" := by
  refine ⟨rfl, rfl, ?_⟩
  have h := C2_cleanup_failure_overrides_engine_result optsA envCleanupFail 7 42
    "WGSKB64" rfl rfl rfl rfl rfl rfl rfl rfl rfl rfl rfl rfl (by rfl)
  simpa [envCleanupFail, envAllOk] using h

/-- C2 counterexample: in the same concrete run the engine's outcome is
success, but `exchange` returns the cleanup error — refuting "the value
returned by exchange is determined by the engine's outcome, with the
deletion failure reported only as a secondary error". -/
theorem C2_counterexample :
    envCleanupFail.eventLoopRes = Except.ok () ∧
    (exchange optsA envCleanupFail).1 = Except.error "cleanup failed" :=
  ⟨rfl, rfl⟩

/-- C3 (amended): the interrupt-path cleanup routine ignores a failure of
its delete-interface request — it still attempts the deletion and returns
success (the source comments the device may already have been auto-cleaned
up); it fails only when opening its fresh control-channel connection
fails. -/
theorem C3_interrupt_cleanup_ignores_delete_failure (env : StandaloneEnv)
    (index : Nat) :
    link_cleanup_standalone env index =
      match env.newConnectionRes with
      | Except.ok _ => (Except.ok (), [Event.linkDel index])
      | Except.error e => (Except.error e, []) := by
  cases h : env.newConnectionRes <;>
    simp [link_cleanup_standalone, bindRes, liftRes, h]

/-- C3 counterexample: with the fresh connection up but the delete request
failing, the cleanup routine returns success — refuting "the cleanup
routine itself fails rather than ignoring the deletion failure". -/
theorem C3_counterexample :
    (link_cleanup_standalone
      { newConnectionRes := Except.ok (),
        linkDelRes := Except.error "delete failed" } 7).1 = Except.ok () ∧
    ({ newConnectionRes := Except.ok (),
       linkDelRes := Except.error "delete failed" } : StandaloneEnv).linkDelRes =
      Except.error "delete failed" :=
  ⟨rfl, rfl⟩

/-- C4 (amended): for every valid port `P` the port pushed to the
classic-tunnel control protocol is `(P + 1) mod 2^16` — equal to `P + 1`
whenever `P + 1` fits a `u16`, wrapping to `0` at `P = 65535` — both for
the local listen port and for peer endpoint ports, and the pushed value is
never the raw user-supplied port. -/
theorem C4_port_offset_mod_u16 (k : Nat) (l : SocketAddr) (peer : ExchangePeer)
    (e : SocketAddr) (hep : peer.endpoint = some e) :
    deviceAttrs k (some l) =
      [WgDeviceAttr.privateKey k, WgDeviceAttr.listenPort ((l.port + 1) % 65536)]
    ∧ endpointParams peer =
      ["endpoint", SocketAddr.toStr ⟨e.ip, (e.port + 1) % 65536⟩]
    ∧ (l.port + 1) % 65536 ≠ l.port
    ∧ (e.port + 1) % 65536 ≠ e.port
    ∧ (l.port + 1 < 65536 → (l.port + 1) % 65536 = l.port + 1)
    ∧ (e.port + 1 < 65536 → (e.port + 1) % 65536 = e.port + 1) := by
  refine ⟨rfl, ?_, ?_, ?_, ?_, ?_⟩
  · simp [endpointParams, hep]
  · omega
  · omega
  · omega
  · omega

/-- C4 witness: at listen port 51820 and peer endpoint port 51000 the
pushed ports are 51821 and 51001. -/
theorem C4_port_offset_witness :
    peerB.endpoint = some ⟨"10.0.0.5", 51000⟩ ∧
    deviceAttrs 42 (some ⟨"1.2.3.4", 51820⟩) =
      [WgDeviceAttr.privateKey 42, WgDeviceAttr.listenPort 51821] ∧
    endpointParams peerB = ["endpoint", SocketAddr.toStr ⟨"10.0.0.5", 51001⟩] := by
  have h := C4_port_offset_mod_u16 42 ⟨"1.2.3.4", 51820⟩ peerB ⟨"10.0.0.5", 51000⟩ rfl
  exact ⟨rfl, by simpa using h.1, by simpa using h.2.1⟩

/-- C4 counterexample: with a listen address at the valid port 65535 the
run pushes listen port 0, not 65536 — refuting "the port pushed equals
P+1 for every valid port value P". -/
theorem C4_counterexample :
    pushedListenPorts (exchange optsListenMax envAllOk).2 = [0] ∧
    (0 : Nat) ≠ 65535 + 1 :=
  ⟨rfl, by decide⟩

/-- C5 (amended): the cancellation handler is armed immediately after the
interface is created and brought up: in every run, no device
configuration, no peer registration and no entry into the engine's run
loop happens before the handler is armed. -/
theorem C5_handler_armed_before_configuration (opts : ExchangeOptions)
    (env : Env) :
    (((exchange opts env).2).takeWhile (fun e => !e.isArmHandler)).all
      (fun e => !(e.isWgSet || e.isAddPeer || e.isEventLoopRun)) = true := by
  obtain ⟨idx, k, trp, -, -, h⟩ := exchange_trace_shape opts env
  rcases h with h | h | h | h | h | h | h <;> rw [h] <;>
    simp [List.takeWhile, Event.isArmHandler, Event.isWgSet, Event.isAddPeer,
      Event.isEventLoopRun]

/-- C5 counterexample: in a concrete successful run with one peer, the
handler-arming event precedes both the device-configuration push and the
peer registration — refuting "the cancellation handler is armed only
after all peers have been registered". -/
theorem C5_counterexample :
    ((exchange optsOnePeer envAllOk).2).findIdx Event.isArmHandler <
      ((exchange optsOnePeer envAllOk).2).findIdx Event.isWgSet ∧
    ((exchange optsOnePeer envAllOk).2).findIdx Event.isArmHandler <
      ((exchange optsOnePeer envAllOk).2).findIdx Event.isAddPeer ∧
    ((exchange optsOnePeer envAllOk).2).any Event.isWgSet = true ∧
    ((exchange optsOnePeer envAllOk).2).any Event.isAddPeer = true := by
  refine ⟨?_, ?_, rfl, rfl⟩ <;> decide

/-- C6: for a peer whose directory has no `psk` file, the engine
registration receives no pre-shared key (`none`), the absent file is not
treated as an error (the psk loader's result is never consulted), and the
peer's provisioning succeeds. -/
theorem C6_missing_psk_registers_none (env : Env) (link_name : String)
    (i : Nat) (peer : ExchangePeer) (pq : Nat) (w : String)
    (hpsk : (env.peerEnv i).pskExists = false)
    (hpq : (env.peerEnv i).loadPqpkRes = Except.ok pq)
    (hw : (env.peerEnv i).readWgpkRes = Except.ok w)
    (hadd : (env.peerEnv i).addPeerRes = Except.ok ()) :
    provisionPeer env link_name i peer =
      (Except.ok (),
       [Event.addPeer none pq none
         (some ⟨link_name, w, peerExtraParams peer⟩)
         (peer.endpoint.map SocketAddr.toStr)]) := by
  simp [provisionPeer, pskArg, bindRes, liftRes, step, hpsk, hpq, hw, hadd]

/-- C6 witness: in an environment whose psk loader would fail if it were
ever called, a peer without a `psk` file still provisions successfully
with psk argument `none`. -/
theorem C6_missing_psk_witness :
    (envPskLoadErr.peerEnv 0).pskExists = false ∧
    (envPskLoadErr.peerEnv 0).loadPskRes = Except.error "psk loader called" ∧
    provisionPeer envPskLoadErr "rosenpass0" 0 peerB =
      (Except.ok (),
       [Event.addPeer none 5 none
         (some ⟨"rosenpass0", "WGPKB64", peerExtraParams peerB⟩)
         (peerB.endpoint.map SocketAddr.toStr)]) :=
  ⟨rfl, rfl,
    C6_missing_psk_registers_none envPskLoadErr "rosenpass0" 0 peerB 5 "WGPKB64"
      rfl rfl rfl rfl⟩

/-- C7: for a peer descriptor lacking an endpoint, the endpoint segment of
the classic-tunnel parameter list is empty, the tunnel-linkage data passed
to the engine carries only the keepalive and allowed-ips segments, and the
engine's endpoint hint is `none`. -/
theorem C7_absent_endpoint_omitted (env : Env) (link_name : String) (i : Nat)
    (peer : ExchangePeer) (psk : Option Nat) (pq : Nat) (w : String)
    (hep : peer.endpoint = none)
    (hpsk : pskArg (env.peerEnv i) = Except.ok psk)
    (hpq : (env.peerEnv i).loadPqpkRes = Except.ok pq)
    (hw : (env.peerEnv i).readWgpkRes = Except.ok w) :
    endpointParams peer = []
    ∧ provisionPeer env link_name i peer =
      ((env.peerEnv i).addPeerRes,
       [Event.addPeer psk pq none
         (some ⟨link_name, w, keepaliveParams peer ++ allowedIpsParams peer⟩)
         none]) := by
  constructor
  · simp [endpointParams, hep]
  · simp [provisionPeer, peerExtraParams, endpointParams, bindRes, liftRes,
      step, hep, hpsk, hpq, hw]

/-- C7 witness: a concrete endpoint-less peer registers with no endpoint
parameter, no endpoint in the tunnel linkage, and hint `none`. -/
theorem C7_absent_endpoint_witness :
    peerNoEp.endpoint = none ∧
    endpointParams peerNoEp = [] ∧
    provisionPeer envAllOk "rosenpass0" 0 peerNoEp =
      (Except.ok (),
       [Event.addPeer none 5 none
         (some ⟨"rosenpass0", "WGPKB64",
           keepaliveParams peerNoEp ++ allowedIpsParams peerNoEp⟩)
         none]) := by
  have h := C7_absent_endpoint_omitted envAllOk "rosenpass0" 0 peerNoEp none 5
    "WGPKB64" rfl rfl rfl rfl
  exact ⟨rfl, h.1, h.2⟩

/-- C8: for a peer with an endpoint, the engine registration's endpoint
hint is the rendered original endpoint (same IP, same port), while the
classic-tunnel parameter list carries the endpoint with port `+1`
(`u16` arithmetic). -/
theorem C8_engine_hint_unadjusted (env : Env) (link_name : String) (i : Nat)
    (peer : ExchangePeer) (e : SocketAddr) (psk : Option Nat) (pq : Nat)
    (w : String)
    (hep : peer.endpoint = some e)
    (hpsk : pskArg (env.peerEnv i) = Except.ok psk)
    (hpq : (env.peerEnv i).loadPqpkRes = Except.ok pq)
    (hw : (env.peerEnv i).readWgpkRes = Except.ok w) :
    provisionPeer env link_name i peer =
      ((env.peerEnv i).addPeerRes,
       [Event.addPeer psk pq none
         (some ⟨link_name, w,
           ["endpoint", SocketAddr.toStr ⟨e.ip, (e.port + 1) % 65536⟩]
             ++ keepaliveParams peer ++ allowedIpsParams peer⟩)
         (some (SocketAddr.toStr e))]) := by
  simp [provisionPeer, peerExtraParams, endpointParams, bindRes, liftRes, step,
    hep, hpsk, hpq, hw]

/-- C8 witness: the scenario-B peer at `10.0.0.5:51000` registers with
classic-tunnel endpoint `10.0.0.5:51001` but engine hint
`10.0.0.5:51000`. -/
theorem C8_engine_hint_witness :
    peerB.endpoint = some ⟨"10.0.0.5", 51000⟩ ∧
    provisionPeer envAllOk "rosenpass0" 0 peerB =
      (Except.ok (),
       [Event.addPeer none 5 none
         (some ⟨"rosenpass0", "WGPKB64",
           ["endpoint", SocketAddr.toStr ⟨"10.0.0.5", 51001⟩]
             ++ keepaliveParams peerB ++ allowedIpsParams peerB⟩)
         (some (SocketAddr.toStr ⟨"10.0.0.5", 51000⟩))]) ∧
    SocketAddr.toStr ⟨"10.0.0.5", 51000⟩ = "10.0.0.5:51000" ∧
    SocketAddr.toStr ⟨"10.0.0.5", 51001⟩ = "10.0.0.5:51001" := by
  have h := C8_engine_hint_unadjusted envAllOk "rosenpass0" 0 peerB
    ⟨"10.0.0.5", 51000⟩ none 5 "WGPKB64" rfl rfl rfl rfl
  refine ⟨rfl, ?_, rfl, rfl⟩
  simpa using h

/-- C9: when no device name is supplied, the interface name defaults to
`rosenpass0`: every event of the run — link creation, link lookup, and
the tunnel-linkage device name of every peer registration — uses
`rosenpass0`. -/
theorem C9_default_device_name (opts : ExchangeOptions) (env : Env)
    (hdev : opts.dev = none) :
    ((exchange opts env).2).all (usesLinkName "rosenpass0") = true := by
  obtain ⟨idx, k, trp, -, hname, h⟩ := exchange_trace_shape opts env
  rw [hdev] at hname h
  simp only [Option.getD_none] at hname h
  rcases h with h | h | h | h | h | h | h <;> rw [h] <;>
    simp [List.all_append, usesLinkName, hname]

/-- C9 witness: a concrete run with `dev = none` uses `rosenpass0`
throughout. -/
theorem C9_default_device_name_witness :
    optsA.dev = none ∧
    ((exchange optsA envAllOk).2).all (usesLinkName "rosenpass0") = true :=
  ⟨rfl, C9_default_device_name optsA envAllOk rfl⟩

/-- C10: every `wg_set` call sends exactly one `SetDevice` message with
flags `NLM_F_REQUEST | NLM_F_ACK` whose attribute list is `IfIndex(index)`
followed by the caller's attributes in their original order. -/
theorem C10_wg_set_binds_ifindex_first (env : Env) (index : Nat)
    (attr : List WgDeviceAttr) :
    wg_set env index attr =
      (env.wgSetRes, [Event.wgSet (wg_set_message index attr)])
    ∧ (wg_set_message index attr).cmd = WireguardCmd.setDevice
    ∧ (wg_set_message index attr).nlas = WgDeviceAttr.ifIndex index :: attr
    ∧ (wg_set_message index attr).flags = [NlFlag.request, NlFlag.ack] := by
  refine ⟨rfl, rfl, ?_, rfl⟩
  simp [wg_set_message, List.insertIdx_zero]

end Rp
